import Mathlib

/-!
Shallow embedding of the analysis pipeline in src/da.py: a linear batch
pipeline that loads a delimited file into a tabular frame, normalizes it
(clean_data), and runs a fixed list of renderers plus a summary step.

Modelling conventions:
* A pandas DataFrame becomes a Schema (which columns are present) plus an
  ordered list of rows whose cells are Option String (none = NaN).
* Raised Python exceptions become Except.error; renderers that merely draw
  and save a chart are modelled as pure successes recording the messages
  printed and the artifact files written (chart drawing itself has no
  failure mode relevant to the claims; column access and tuple unpacking,
  which can raise, are modelled explicitly).
* Python library string helpers (str.strip, str.split, int, "in",
  str.lower) are given executable models below. int() digit-grouping
  underscores and non-ASCII digits are not modelled; split() tokens never
  carry surrounding whitespace, so int()'s tolerance of it is irrelevant.
* pandas.to_datetime with errors="coerce" is modelled on ISO
  "YYYY-MM-DD" inputs (the only shape the claims exercise); any other
  shape is treated as unparseable (NaT).
-/

/-- Python str whitespace characters (the ASCII ones str.strip removes). -/
def isPyWs (c : Char) : Bool :=
  c == ' ' || c == '\t' || c == '\n' || c == '\r' || c == '\x0b' || c == '\x0c'

/-- Drop leading Python whitespace from a character list. -/
def dropWs (l : List Char) : List Char := l.dropWhile isPyWs

/-- Model of Python str.strip(): remove leading and trailing whitespace. -/
def pyStrip (s : String) : String :=
  String.mk (dropWs (dropWs s.toList.reverse).reverse)

/-- Split a character list at every character satisfying the predicate; the
accumulator holds the current piece reversed. -/
def splitPredAux (p : Char → Bool) : List Char → List Char → List (List Char)
  | [], acc => [acc.reverse]
  | c :: cs, acc =>
    if p c then acc.reverse :: splitPredAux p cs []
    else splitPredAux p cs (c :: acc)

/-- Model of Python str.split(sep) for a one-character separator: the pieces
between occurrences of the separator, empty pieces kept. -/
def pySplitOn (s : String) (sep : Char) : List String :=
  (splitPredAux (fun c => c == sep) s.toList []).map String.mk

/-- Model of Python str.split() with no argument: split on whitespace runs,
discarding empty tokens. -/
def pySplitWs (s : String) : List String :=
  ((splitPredAux isPyWs s.toList []).map String.mk).filter (fun t => t ≠ "")

/-- Accumulate the value of a decimal digit list; none on a non-digit. -/
def digitsVal : List Char → Nat → Option Nat
  | [], acc => some acc
  | c :: cs, acc =>
    if c.isDigit then digitsVal cs (10 * acc + (c.toNat - 48)) else none

/-- The value of a nonempty all-digit character list, else none. -/
def pyDigits : List Char → Option Nat
  | [] => none
  | cs => digitsVal cs 0

/-- Model of Python int(str): optional sign then decimal digits; none models
the ValueError int() raises on anything else. -/
def pyInt? (t : String) : Option Int :=
  match t.toList with
  | '+' :: rest => (pyDigits rest).map (fun n => (n : Int))
  | '-' :: rest => (pyDigits rest).map (fun n => -(n : Int))
  | cs => (pyDigits cs).map (fun n => (n : Int))

/-- Whether the pattern occurs at the head of the character list. -/
def subAt : List Char → List Char → Bool
  | [], _ => true
  | _ :: _, [] => false
  | p :: ps, c :: cs => p == c && subAt ps cs

/-- Whether the pattern occurs anywhere in the character list. -/
def hasSub (pat : List Char) : List Char → Bool
  | [] => subAt pat []
  | c :: cs => subAt pat (c :: cs) || hasSub pat cs

/-- Model of the Python test: pat in s (substring containment). -/
def pyContains (s pat : String) : Bool := hasSub pat.toList s.toList

/-- Model of Python str.lower() for the ASCII text the pipeline compares. -/
def pyLower (s : String) : String := String.mk (s.toList.map Char.toLower)

/-- Modelled subset of pandas.to_datetime with errors coerce: an ISO
"YYYY-MM-DD" string parses to (year, month, day); any other shape is
treated as unparseable and coerced to missing (NaT). -/
def parseDate (s : String) : Option (Int × Nat × Nat) :=
  match pySplitOn (pyStrip s) '-' with
  | [y, m, d] =>
    match pyDigits y.toList, pyDigits m.toList, pyDigits d.toList with
    | some yv, some mv, some dv =>
      if 1 ≤ mv ∧ mv ≤ 12 ∧ 1 ≤ dv ∧ dv ≤ 31 then some ((yv : Int), mv, dv)
      else none
    | _, _, _ => none
  | _ => none

/-- Which of the optional input columns are present in the frame's schema
(column names taken after the strip applied at src/da.py line 49; the
remaining, untouched columns live in each row's other list). -/
structure Schema where
  hasType : Bool
  hasDirector : Bool
  hasCast : Bool
  hasCountry : Bool
  hasRating : Bool
  hasListedIn : Bool
  hasDateAdded : Bool
  hasDuration : Bool
deriving DecidableEq

/-- One raw input row: a cell is none when the value is missing (NaN) or the
column is absent; columns the pipeline never touches are kept in other. -/
structure Row where
  type? : Option String
  director? : Option String
  cast? : Option String
  country? : Option String
  rating? : Option String
  listed_in? : Option String
  date_added? : Option String
  duration? : Option String
  other : List (String × Option String)
deriving DecidableEq

/-- The loaded frame: schema plus rows in input order. -/
structure DataFrame where
  schema : Schema
  rows : List Row
deriving DecidableEq

/-- One cleaned row, as produced by clean_data (src/da.py lines 45 to 100):
the original cells after the named normalizations plus the derived fields. -/
structure CRow where
  type? : Option String
  director? : Option String
  cast? : Option String
  country? : Option String
  rating? : Option String
  listed_in? : Option String
  date_added : Option (Int × Nat × Nat)
  year_added : Option Int
  genres_list : List String
  duration_parsed : Option Int
  primary_country : String
  other : List (String × Option String)
deriving DecidableEq

/-- The cleaned frame clean_data returns. -/
structure CFrame where
  schema : Schema
  rows : List CRow
deriving DecidableEq

/-- parse_duration (src/da.py lines 75 to 87): missing input stays missing;
otherwise strip the text and, whether or not it contains "min" (the two
branches of the source are textually identical), convert the first
whitespace-separated token with int(); the try/except turns a failed
conversion (non-numeric token) or a missing first token (empty string,
IndexError) into NaN, modelled as none. -/
def parse_duration (x : Option String) : Option Int :=
  match x with
  | none => none
  | some x0 =>
    let s := pyStrip x0
    if pyContains s "min" then
      match pySplitWs s with
      | [] => none
      | t :: _ => pyInt? t
    else
      match pySplitWs s with
      | [] => none
      | t :: _ => pyInt? t

/-- The per-row effect of clean_data (src/da.py lines 45 to 100): dates are
parsed and year_added derived; director, cast, country, rating and
listed_in have missing values filled with the sentinel; type is stripped;
genres_list, duration_parsed and primary_country are derived; every other
column is carried through unchanged (its name stripped at line 49). -/
def cleanRow (sc : Schema) (r : Row) : CRow where
  type? := if sc.hasType then r.type?.map pyStrip else none
  director? := if sc.hasDirector then some (r.director?.getD "Unknown") else none
  cast? := if sc.hasCast then some (r.cast?.getD "Unknown") else none
  country? := if sc.hasCountry then some (r.country?.getD "Unknown") else none
  rating? := if sc.hasRating then some (r.rating?.getD "Unknown") else none
  listed_in? := if sc.hasListedIn then some (r.listed_in?.getD "Unknown") else none
  date_added := if sc.hasDateAdded then r.date_added?.bind parseDate else none
  year_added :=
    if sc.hasDateAdded then (r.date_added?.bind parseDate).map (fun d => d.1)
    else none
  genres_list :=
    if sc.hasListedIn then (pySplitOn (r.listed_in?.getD "Unknown") ',').map pyStrip
    else []
  duration_parsed := if sc.hasDuration then parse_duration r.duration? else none
  primary_country :=
    if sc.hasCountry then
      let x := r.country?.getD "Unknown"
      if x ≠ "Unknown" then pyStrip ((pySplitOn x ',').headD "") else "Unknown"
    else "Unknown"
  other := r.other.map (fun p => (pyStrip p.1, p.2))

/-- clean_data (src/da.py lines 45 to 100): a pure row-wise transformation;
the row list is mapped in order, nothing filtered or reordered. -/
def clean_data (df : DataFrame) : CFrame where
  schema := df.schema
  rows := df.rows.map (cleanRow df.schema)

/-- Insert an element into an already sorted list, after any element that may
come before or equal it: with this insertion, folding a list from the left
is a stable sort, the model of Python's sorted() / Counter.most_common /
Series sorting, all of which are stable. -/
def sInsert (le : α → α → Bool) (a : α) : List α → List α
  | [] => [a]
  | b :: l => if le b a then b :: sInsert le a l else a :: b :: l

/-- Stable sort under the comparator le (le x y: x may come before y). -/
def stableSort (le : α → α → Bool) (l : List α) : List α :=
  l.foldl (fun acc a => sInsert le a acc) []

/-- One increment of a collections.Counter modelled as an insertion-ordered
association list: bump an existing key in place, append a new key. -/
def counterAdd (c : List (String × Nat)) (k : String) : List (String × Nat) :=
  match c with
  | [] => [(k, 1)]
  | (k0, n) :: rest =>
    if k0 = k then (k0, n + 1) :: rest else (k0, n) :: counterAdd rest k

/-- Counter.most_common(n): entries sorted by count descending (stable, so
ties keep insertion order), then the first n taken. -/
def most_common (c : List (String × Nat)) (n : Nat) : List (String × Nat) :=
  (stableSort (fun a b => decide (b.2 ≤ a.2)) c).take n

/-- First-occurrence deduplication, the distinct values of a Series. -/
def dedupF (l : List Int) : List Int :=
  l.foldl (fun acc x => if x ∈ acc then acc else acc ++ [x]) []

/-- Series.value_counts(): each distinct value with its count, sorted by
count descending. -/
def value_counts (l : List Int) : List (Int × Nat) :=
  stableSort (fun a b => decide (b.2 ≤ a.2))
    ((dedupF l).map (fun v => (v, l.count v)))

/-- Series.sort_index(): sort the (key, count) pairs by key ascending. -/
def sort_index (l : List (Int × Nat)) : List (Int × Nat) :=
  stableSort (fun a b => decide (a.1 ≤ b.1)) l

/-- What one renderer step leaves behind: the messages it prints and the
artifact files it saves. -/
structure RenderOut where
  messages : List String
  artifacts : List String
deriving DecidableEq

/-- A renderer either completes (messages, artifacts) or raises, modelled as
Except.error naming the Python exception. -/
abbrev RResult := Except String RenderOut

/-- plot_movies_vs_tv (src/da.py lines 103 to 114): reads df of column type
unconditionally, so a frame without that column raises KeyError; otherwise
the chart is drawn and saved (value_counts and countplot accept an empty
or all-missing column without raising). -/
def plot_movies_vs_tv (df : CFrame) : RResult :=
  if df.schema.hasType then
    Except.ok { messages := ["Saved plots/movies_vs_tv.png"],
                artifacts := ["plots/movies_vs_tv.png"] }
  else
    Except.error "KeyError: type"

/-- The genre Counter of plot_top_genres (src/da.py lines 119 to 122): every
genres_list of the frame folded into one insertion-ordered counter. -/
def all_genres (df : CFrame) : List (String × Nat) :=
  df.rows.foldl (fun acc r => r.genres_list.foldl counterAdd acc) []

/-- plot_top_genres (src/da.py lines 117 to 135): tallies the genres, takes
most_common, then unpacks with zip(star top); when the tally is empty the
unpacking of zero pairs into two names raises ValueError, otherwise the
chart is saved. -/
def plot_top_genres (df : CFrame) (top_n : Nat) : RResult :=
  match most_common (all_genres df) top_n with
  | [] => Except.error "ValueError: not enough values to unpack"
  | _ :: _ =>
    Except.ok { messages := ["Saved plots/top_genres.png"],
                artifacts := ["plots/top_genres.png"] }

/-- The year_added values present in the frame (dropna of the column, which
clean_data always adds). -/
def yearsOf (df : CFrame) : List Int :=
  df.rows.filterMap (fun r => r.year_added)

/-- The series plot_yearly_trend draws (src/da.py line 142): value_counts of
the present year_added values, sorted by year ascending. -/
def yearlySeries (df : CFrame) : List (Int × Nat) :=
  sort_index (value_counts (yearsOf df))

/-- plot_yearly_trend (src/da.py lines 138 to 152): year_added is always a
column of a cleaned frame, so the guard reduces to all values missing, in
which case the renderer prints a skip message and returns; otherwise the
chart is saved. -/
def plot_yearly_trend (df : CFrame) : RResult :=
  if (yearsOf df).isEmpty then
    Except.ok { messages := ["No year_added information available to plot yearly trend."],
                artifacts := [] }
  else
    Except.ok { messages := ["Saved plots/content_added_per_year.png"],
                artifacts := ["plots/content_added_per_year.png"] }

/-- plot_top_countries (src/da.py lines 155 to 166): primary_country is
always a column of a cleaned frame and the plotting accepts an empty
frame, so the renderer always saves its chart. -/
def plot_top_countries (df : CFrame) (top_n : Nat) : RResult :=
  Except.ok { messages := ["Saved plots/top_countries.png"],
              artifacts := ["plots/top_countries.png"] }

/-- plot_rating_distribution (src/da.py lines 169 to 183): without a rating
column it prints a skip message and returns; otherwise the chart is
saved. -/
def plot_rating_distribution (df : CFrame) : RResult :=
  if df.schema.hasRating then
    Except.ok { messages := ["Saved plots/rating_distribution.png"],
                artifacts := ["plots/rating_distribution.png"] }
  else
    Except.ok { messages := ["No rating column present"], artifacts := [] }

/-- Whether a cleaned row's type, lowercased, equals the given text; a
missing type compares unequal (pandas .str.lower keeps NaN, which the
equality test maps to False). -/
def isTypeEq (r : CRow) (t : String) : Bool :=
  match r.type? with
  | some v => pyLower v == t
  | none => false

/-- duration_insights (src/da.py lines 186 to 216): partition by type (all
rows count as movies and none as shows when the type column is absent);
each half saves its chart only when its subset and its present
duration_parsed values are nonempty, and nothing in the function raises. -/
def duration_insights (df : CFrame) : RResult :=
  let movies :=
    if df.schema.hasType then df.rows.filter (fun r => isTypeEq r "movie")
    else df.rows
  let shows :=
    if df.schema.hasType then df.rows.filter (fun r => isTypeEq r "tv show")
    else []
  let mPart :=
    if !movies.isEmpty && !(movies.filterMap (fun r => r.duration_parsed)).isEmpty
    then (["Saved plots/movie_duration_distribution.png"],
          ["plots/movie_duration_distribution.png"])
    else ([], [])
  let sPart :=
    if !shows.isEmpty && !(shows.filterMap (fun r => r.duration_parsed)).isEmpty
    then (["Saved plots/show_seasons_count.png"],
          ["plots/show_seasons_count.png"])
    else ([], [])
  Except.ok { messages := mPart.1 ++ sPart.1, artifacts := mPart.2 ++ sPart.2 }

/-- The director series of top_directors_actors (src/da.py lines 221 to
222): the present director values with the sentinel Unknown filtered
out. -/
def directorsOf (df : CFrame) : List String :=
  (df.rows.filterMap (fun r => r.director?)).filter (fun d => d ≠ "Unknown")

/-- The first five comma-separated, stripped tokens of one cast cell
(src/da.py line 240). -/
def actorTokens (c : String) : List String :=
  ((pySplitOn c ',').map pyStrip).take 5

/-- What one cast cell contributes to the actor counter: its first five
stripped tokens, empty tokens then dropped (the if actor test). -/
def actorContrib (c : String) : List String :=
  (actorTokens c).filter (fun a => a ≠ "")

/-- The actor Counter of top_directors_actors (src/da.py lines 237 to 242):
every present cast cell's contribution folded into one counter. -/
def actor_counter (df : CFrame) : List (String × Nat) :=
  (df.rows.filterMap (fun r => r.cast?)).foldl
    (fun acc c => (actorContrib c).foldl counterAdd acc) []

/-- top_directors_actors (src/da.py lines 219 to 254): reads df of column
director unconditionally, so a frame without that column raises KeyError;
the director chart is saved only when a non-sentinel director exists, and
the actor chart only when the cast column is present and its counter's
most_common is nonempty (that unpacking is guarded by the if). -/
def top_directors_actors (df : CFrame) (top_n : Nat) : RResult :=
  if df.schema.hasDirector then
    let dPart :=
      if (directorsOf df).isEmpty then ([], [])
      else (["Saved plots/top_directors.png"], ["plots/top_directors.png"])
    let aPart :=
      if df.schema.hasCast then
        if (most_common (actor_counter df) top_n).isEmpty then ([], [])
        else (["Saved plots/top_actors.png"], ["plots/top_actors.png"])
      else ([], [])
    Except.ok { messages := dPart.1 ++ aPart.1, artifacts := dPart.2 ++ aPart.2 }
  else
    Except.error "KeyError: director"

/-- The summary's earliest_year_added (src/da.py line 263): the minimum
present year_added, missing when none is present. -/
def earliest_year_added (df : CFrame) : Option Int := (yearsOf df).min?

/-- The summary's latest_year_added (src/da.py line 264): the maximum
present year_added, missing when none is present. -/
def latest_year_added (df : CFrame) : Option Int := (yearsOf df).max?

/-- save_summary (src/da.py lines 257 to 272): builds the metric table and
writes the csv; every numeric access is guarded by an emptiness test, so
the step always completes and writes its one artifact. -/
def save_summary (df : CFrame) : RResult :=
  Except.ok { messages := ["Saved summary to output/summary_stats.csv"],
              artifacts := ["output/summary_stats.csv"] }

/-- read_data (src/da.py lines 37 to 42): when the path names no existing
file, print the diagnostic and exit with status 1 before anything is
written; otherwise the file parses into the frame. -/
def read_data (csvExists : Bool) (df : DataFrame) : Except String DataFrame :=
  if csvExists then Except.ok df
  else Except.error "ERROR: CSV file not found"

/-- What a whole run leaves behind: the process exit status, the messages
printed and the artifact files written. ensure_dirs only creates the
output directories and writes no artifact. -/
structure RunResult where
  exitCode : Nat
  messages : List String
  artifacts : List String
deriving DecidableEq

/-- The renderer steps of main (src/da.py lines 281 to 288) in program
order, save_summary last. -/
def renderSeq (df : CFrame) (tg tc tp : Nat) : List RResult :=
  [plot_movies_vs_tv df, plot_top_genres df tg, plot_yearly_trend df,
   plot_top_countries df tc, plot_rating_distribution df,
   duration_insights df, top_directors_actors df tp, save_summary df]

/-- Run the steps in order: an uncaught exception aborts the run with a
non-zero status (later steps never run, the final message is not
printed); if all complete the run exits 0 with the closing message. -/
def runSteps : List RResult → RunResult
  | [] =>
    { exitCode := 0,
      messages := ["All done. Plots are in the plots directory and summary in output."],
      artifacts := [] }
  | Except.error e :: _ => { exitCode := 1, messages := [e], artifacts := [] }
  | Except.ok o :: rest =>
    let r := runSteps rest
    { exitCode := r.exitCode, messages := o.messages ++ r.messages,
      artifacts := o.artifacts ++ r.artifacts }

/-- main (src/da.py lines 275 to 290): create the output directories, load
(aborting with exit status 1 and no artifact when the csv path does not
exist), clean, then run every renderer and the summary in order. -/
def mainRun (csvExists : Bool) (raw : DataFrame) (tg tc tp : Nat) : RunResult :=
  match read_data csvExists raw with
  | Except.error e => { exitCode := 1, messages := [e], artifacts := [] }
  | Except.ok d => runSteps (renderSeq (clean_data d) tg tc tp)

/-- A row with every cell missing. -/
def blankRow : Row where
  type? := none
  director? := none
  cast? := none
  country? := none
  rating? := none
  listed_in? := none
  date_added? := none
  duration? := none
  other := []

/-- A schema with every optional column present. -/
def fullSchema : Schema where
  hasType := true
  hasDirector := true
  hasCast := true
  hasCountry := true
  hasRating := true
  hasListedIn := true
  hasDateAdded := true
  hasDuration := true

/-- A frame with every column present but no rows. -/
def emptyDf : DataFrame where
  schema := fullSchema
  rows := []

/-- A one-row frame whose schema lacks the type column. -/
def dfNoType : DataFrame where
  schema := { fullSchema with hasType := false }
  rows := [blankRow]

/-- A one-row frame whose schema lacks the director column. -/
def dfNoDirector : DataFrame where
  schema := { fullSchema with hasDirector := false }
  rows := [blankRow]

/-- A one-row frame whose cast cell is missing (the column itself being
present, the cell is filled with the sentinel by clean_data). -/
def dfMissingCast : DataFrame where
  schema := fullSchema
  rows := [{ blankRow with director? := some "Ava DuVernay" }]

/-- The two-row scenario frame: date_added cells 2020-01-15 and
2021-03-02. -/
def twoRowDf : DataFrame where
  schema := fullSchema
  rows := [{ blankRow with date_added? := some "2020-01-15" },
           { blankRow with date_added? := some "2021-03-02" }]

/-- A one-row frame, every column present, whose only cast cell is the
given text. -/
def oneCastDf (c : String) : DataFrame where
  schema := fullSchema
  rows := [{ blankRow with cast? := some c }]

/-- Antisymmetry of the integer order, as the library's min and max
characterizations expect it. -/
instance : Std.Antisymm (fun x1 x2 : Int => x1 ≤ x2) :=
  ⟨fun h1 h2 => le_antisymm h1 h2⟩

theorem mem_sInsert {α : Type} (le : α → α → Bool) (a x : α) (l : List α) :
    x ∈ sInsert le a l ↔ x = a ∨ x ∈ l := by
  induction l with
  | nil => simp [sInsert]
  | cons b t ih =>
    simp only [sInsert]
    by_cases h : le b a = true
    · rw [if_pos h]
      simp only [List.mem_cons, ih]
      tauto
    · rw [if_neg h]
      simp only [List.mem_cons]

theorem pairwise_sInsert {α : Type} (le : α → α → Bool)
    (htrans : ∀ a b c, le a b = true → le b c = true → le a c = true)
    (htot : ∀ a b, le a b = true ∨ le b a = true)
    (a : α) (l : List α) (hl : l.Pairwise (fun x y => le x y = true)) :
    (sInsert le a l).Pairwise (fun x y => le x y = true) := by
  induction l with
  | nil => simp [sInsert]
  | cons b t ih =>
    rw [List.pairwise_cons] at hl
    obtain ⟨hb, ht⟩ := hl
    simp only [sInsert]
    by_cases h : le b a = true
    · rw [if_pos h]
      rw [List.pairwise_cons]
      refine ⟨?_, ih ht⟩
      intro x hx
      rcases (mem_sInsert le a x t).1 hx with rfl | hx
      · exact h
      · exact hb x hx
    · rw [if_neg h]
      have hab : le a b = true := (htot a b).resolve_right (fun hba => h hba)
      rw [List.pairwise_cons]
      refine ⟨?_, ?_⟩
      · intro x hx
        rcases List.mem_cons.1 hx with rfl | hx
        · exact hab
        · exact htrans a b x hab (hb x hx)
      · rw [List.pairwise_cons]
        exact ⟨hb, ht⟩

theorem pairwise_stableSort {α : Type} (le : α → α → Bool)
    (htrans : ∀ a b c, le a b = true → le b c = true → le a c = true)
    (htot : ∀ a b, le a b = true ∨ le b a = true)
    (l : List α) :
    (stableSort le l).Pairwise (fun x y => le x y = true) := by
  have key : ∀ (l acc : List α), acc.Pairwise (fun x y => le x y = true) →
      (l.foldl (fun acc a => sInsert le a acc) acc).Pairwise
        (fun x y => le x y = true) := by
    intro l
    induction l with
    | nil => intro acc h; exact h
    | cons a t ih =>
      intro acc h
      exact ih _ (pairwise_sInsert le htrans htot a acc h)
  exact key l [] (by simp)

theorem mem_stableSort {α : Type} (le : α → α → Bool) (x : α) (l : List α) :
    x ∈ stableSort le l ↔ x ∈ l := by
  have key : ∀ (l acc : List α),
      (x ∈ l.foldl (fun acc a => sInsert le a acc) acc ↔ x ∈ acc ∨ x ∈ l) := by
    intro l
    induction l with
    | nil => intro acc; simp
    | cons a t ih =>
      intro acc
      rw [List.foldl_cons, ih, mem_sInsert]
      simp only [List.mem_cons]
      tauto
  rw [stableSort, key l []]
  simp

theorem mem_dedupF (l : List Int) (x : Int) : x ∈ dedupF l ↔ x ∈ l := by
  have key : ∀ (l acc : List Int),
      (x ∈ l.foldl (fun acc y => if y ∈ acc then acc else acc ++ [y]) acc
        ↔ x ∈ acc ∨ x ∈ l) := by
    intro l
    induction l with
    | nil => intro acc; simp
    | cons a t ih =>
      intro acc
      rw [List.foldl_cons, ih]
      by_cases h : a ∈ acc
      · rw [if_pos h]
        simp only [List.mem_cons]
        constructor
        · tauto
        · rintro (hx | rfl | hx) <;> tauto
      · rw [if_neg h]
        simp only [List.mem_append, List.mem_singleton, List.mem_cons]
        tauto
  rw [dedupF, key l []]
  simp

theorem parse_duration_eq (s : String) :
    parse_duration (some s) = ((pySplitWs (pyStrip s)).head?).bind pyInt? := by
  simp only [parse_duration]
  by_cases h : pyContains (pyStrip s) "min" = true
  · rw [if_pos h]
    cases pySplitWs (pyStrip s) <;> rfl
  · rw [if_neg h]
    cases pySplitWs (pyStrip s) <;> rfl

/-- Claim C2: parse_duration returns the leading integer token, as minutes
when the stripped text contains "min" and as a season count otherwise
("90 min" gives 90, "2 Seasons" gives 2); a parse failure (non-numeric
leading token such as "Season", empty text, missing value) gives the
numeric-missing marker, and the function is total so no exception
escapes. -/
theorem c2_parse_duration_rules :
    parse_duration (some "90 min") = some 90
  ∧ parse_duration (some "2 Seasons") = some 2
  ∧ parse_duration (some "Season") = none
  ∧ parse_duration (some "") = none
  ∧ parse_duration none = none
  ∧ (∀ (s t : String) (n : Int), pyContains (pyStrip s) "min" = true →
       (pySplitWs (pyStrip s)).head? = some t → pyInt? t = some n →
       parse_duration (some s) = some n)
  ∧ (∀ (s t : String) (n : Int), pyContains (pyStrip s) "min" = false →
       (pySplitWs (pyStrip s)).head? = some t → pyInt? t = some n →
       parse_duration (some s) = some n)
  ∧ (∀ s : String, ((pySplitWs (pyStrip s)).head?).bind pyInt? = none →
       parse_duration (some s) = none) := by
  refine ⟨by decide, by decide, by decide, by decide, rfl, ?_, ?_, ?_⟩
  · intro s t n _ ht hn
    rw [parse_duration_eq, ht]
    exact hn
  · intro s t n _ ht hn
    rw [parse_duration_eq, ht]
    exact hn
  · intro s h
    rw [parse_duration_eq]
    exact h

/-- Claim C10: whenever the leading whitespace-separated token of the
stripped duration text parses as an integer, parse_duration returns that
integer, independently of whether the text contains "min": the two
branches of the source are identical, so the unit text never affects the
parsed number. -/
theorem c10_unit_text_irrelevant :
    ∀ (s t : String) (n : Int),
      (pySplitWs (pyStrip s)).head? = some t → pyInt? t = some n →
      parse_duration (some s) = some n := by
  intro s t n ht hn
  rw [parse_duration_eq, ht]
  exact hn

/-- Claim C10, witness: the rule applied on one input of each branch, one
containing "min" and one not. -/
theorem c10_unit_text_irrelevant_witness :
    parse_duration (some "90 min") = some 90
  ∧ parse_duration (some "2 Seasons") = some 2 :=
  ⟨c10_unit_text_irrelevant "90 min" "90" 90 (by decide) (by decide),
   c10_unit_text_irrelevant "2 Seasons" "2" 2 (by decide) (by decide)⟩

/-- Claim C4: when the csv path names no existing file, the run aborts at
once with the diagnostic message and exit status 1 (non-zero), and writes
no artifact at all (the renderers never run; ensure_dirs only creates
empty directories). -/
theorem c4_missing_file_aborts :
    ∀ (raw : DataFrame) (tg tc tp : Nat),
      mainRun false raw tg tc tp =
        { exitCode := 1, messages := ["ERROR: CSV file not found"],
          artifacts := [] }
      ∧ (mainRun false raw tg tc tp).exitCode ≠ 0
      ∧ (mainRun false raw tg tc tp).artifacts = [] :=
  fun raw tg tc tp => ⟨rfl, Nat.one_ne_zero, rfl⟩

/-- Claim C5: genres_list is the comma-split of listed_in with every token
stripped ("Dramas, International Movies" gives the two trimmed genres); a
missing listed_in cell is filled with the sentinel first, so it yields
the single-element list of the sentinel; and when the listed_in column is
absent from the schema, every cleaned row's genres_list is empty. -/
theorem c5_genres_list_rules :
    ((pySplitOn "Dramas, International Movies" ',').map pyStrip
        = ["Dramas", "International Movies"])
  ∧ (∀ (sc : Schema) (r : Row) (s : String), sc.hasListedIn = true →
       r.listed_in? = some s →
       (cleanRow sc r).genres_list = (pySplitOn s ',').map pyStrip)
  ∧ (∀ (sc : Schema) (r : Row), sc.hasListedIn = true → r.listed_in? = none →
       (cleanRow sc r).genres_list = ["Unknown"])
  ∧ (∀ (df : DataFrame) (c : CRow), df.schema.hasListedIn = false →
       c ∈ (clean_data df).rows → c.genres_list = []) := by
  refine ⟨by decide, ?_, ?_, ?_⟩
  · intro sc r s h hs
    simp [cleanRow, h, hs]
  · intro sc r h hs
    simp only [cleanRow, h, hs, if_pos, Option.getD_none]
    decide
  · intro df c h hc
    obtain ⟨r, hr, rfl⟩ := List.mem_map.1 hc
    simp [cleanRow, h]

/-- Claim C6: primary_country is the text before the first comma of the
country cell, stripped, whenever the country column is present and the
(filled) cell is not the sentinel ("Canada, United States" gives
"Canada"); a missing cell or a sentinel cell, and likewise an absent
country column, give the sentinel. -/
theorem c6_primary_country_rules :
    (pyStrip ((pySplitOn "Canada, United States" ',').headD "") = "Canada")
  ∧ (∀ (sc : Schema) (r : Row) (s : String), sc.hasCountry = true →
       r.country? = some s → s ≠ "Unknown" →
       (cleanRow sc r).primary_country = pyStrip ((pySplitOn s ',').headD ""))
  ∧ (∀ (sc : Schema) (r : Row), sc.hasCountry = true →
       (r.country? = none ∨ r.country? = some "Unknown") →
       (cleanRow sc r).primary_country = "Unknown")
  ∧ (∀ (sc : Schema) (r : Row), sc.hasCountry = false →
       (cleanRow sc r).primary_country = "Unknown") := by
  refine ⟨by decide, ?_, ?_, ?_⟩
  · intro sc r s h hs hne
    simp [cleanRow, h, hs, hne]
  · intro sc r h hs
    rcases hs with hs | hs <;> simp [cleanRow, h, hs]
  · intro sc r h
    simp [cleanRow, h]

/-- Claim C7: one cast cell contributes only its first five comma-separated,
stripped names to the actor counter: when the cell splits into eight
nonempty names, the contribution is exactly the first five, and the
counter of a one-row frame with that cell tallies exactly those five. -/
theorem c7_actor_cap :
    ∀ c : String,
      ((pySplitOn c ',').map pyStrip).length = 8 →
      (∀ t ∈ (pySplitOn c ',').map pyStrip, t ≠ "") →
        actorContrib c = ((pySplitOn c ',').map pyStrip).take 5
      ∧ (actorContrib c).length = 5
      ∧ actor_counter (clean_data (oneCastDf c))
          = (((pySplitOn c ',').map pyStrip).take 5).foldl counterAdd [] := by
  intro c h8 hne
  have hcontrib : actorContrib c = ((pySplitOn c ',').map pyStrip).take 5 := by
    rw [actorContrib, actorTokens]
    apply List.filter_eq_self.2
    intro a ha
    have ha2 : a ∈ (pySplitOn c ',').map pyStrip := List.mem_of_mem_take ha
    simpa using hne a ha2
  refine ⟨hcontrib, ?_, ?_⟩
  · rw [hcontrib, List.length_take, h8]
    decide
  · show (actorContrib c).foldl counterAdd [] = _
    rw [hcontrib]

/-- Claim C7, witness: an eight-name cast cell contributes exactly its first
five names. -/
theorem c7_actor_cap_witness :
      actorContrib "A,B,C,D,E,F,G,H"
        = ((pySplitOn "A,B,C,D,E,F,G,H" ',').map pyStrip).take 5
    ∧ (actorContrib "A,B,C,D,E,F,G,H").length = 5
    ∧ actor_counter (clean_data (oneCastDf "A,B,C,D,E,F,G,H"))
        = (((pySplitOn "A,B,C,D,E,F,G,H" ',').map pyStrip).take 5).foldl
            counterAdd [] :=
  c7_actor_cap "A,B,C,D,E,F,G,H" (by decide) (by decide)

/-- Claim C1, counterexample: three renderers do raise on a failed
precondition instead of skipping: the genre renderer raises ValueError on
an empty dataset (empty genre tally), the type-count renderer raises
KeyError when the type column is absent, and the people renderer raises
KeyError when the director column is absent. -/
theorem c1_cex_renderers_raise :
    plot_top_genres (clean_data emptyDf) 12
      = Except.error "ValueError: not enough values to unpack"
  ∧ plot_movies_vs_tv (clean_data dfNoType) = Except.error "KeyError: type"
  ∧ top_directors_actors (clean_data dfNoDirector) 10
      = Except.error "KeyError: director" :=
  ⟨rfl, rfl, rfl⟩

/-- Claim C1, amended: the rating and yearly-trend renderers skip cleanly
with an informational message on a failed precondition; the duration
renderer never raises and, when no parsed duration is present, skips
silently (no message, no artifact); the people renderer skips silently
when the director column holds only the sentinel and the cast column is
absent; the type-count, genre-frequency and people-frequency renderers,
however, raise on an absent type column, an empty genre tally and an
absent director column respectively. -/
theorem c1_amended_renderer_skips :
    (∀ df : CFrame, df.schema.hasRating = false →
       plot_rating_distribution df
         = Except.ok { messages := ["No rating column present"], artifacts := [] })
  ∧ (∀ df : CFrame, yearsOf df = [] →
       plot_yearly_trend df
         = Except.ok { messages := ["No year_added information available to plot yearly trend."], artifacts := [] })
  ∧ (∀ df : CFrame, ∃ o : RenderOut, duration_insights df = Except.ok o)
  ∧ (∀ df : CFrame, df.rows.filterMap (fun r => r.duration_parsed) = [] →
       duration_insights df = Except.ok { messages := [], artifacts := [] })
  ∧ (∀ (df : CFrame) (n : Nat), df.schema.hasDirector = true →
       df.schema.hasCast = false → directorsOf df = [] →
       top_directors_actors df n
         = Except.ok { messages := [], artifacts := [] }) := by
  refine ⟨?_, ?_, ?_, ?_, ?_⟩
  · intro df h
    simp [plot_rating_distribution, h]
  · intro df h
    simp [plot_yearly_trend, h]
  · intro df
    exact ⟨_, rfl⟩
  · intro df h
    have hsub : ∀ p : CRow → Bool,
        (df.rows.filter p).filterMap (fun r => r.duration_parsed) = [] := by
      intro p
      have hs := (List.filter_sublist (p := p) df.rows).filterMap
        (fun r => r.duration_parsed)
      rw [h] at hs
      exact List.sublist_nil.1 hs
    by_cases ht : df.schema.hasType = true
    · simp [duration_insights, ht, hsub]
    · simp [duration_insights, ht, h]
  · intro df n hd hc hdir
    simp [top_directors_actors, hd, hc, hdir]

/-- Claim C3, counterexample: a record whose cast cell is missing is filled
with the sentinel by clean_data, and the actor counter then tallies
"Unknown" as a bucket of its own, which also survives most_common; so the
sentinel is not filtered out of the actor aggregation. -/
theorem c3_cex_unknown_actor_bucket :
    actor_counter (clean_data dfMissingCast) = [("Unknown", 1)]
  ∧ (actor_counter (clean_data dfMissingCast)).map Prod.fst = ["Unknown"]
  ∧ most_common (actor_counter (clean_data dfMissingCast)) 10
      = [("Unknown", 1)] :=
  ⟨rfl, rfl, rfl⟩

/-- Claim C3, amended: the sentinel "Unknown" is explicitly filtered out of
the director tally only; the actor tally does not filter it, so a cast
cell equal to the sentinel (as substituted for a missing cast) appears as
its own bucket. -/
theorem c3_amended_sentinel_filtering :
    (∀ df : CFrame, "Unknown" ∉ directorsOf df)
  ∧ (actor_counter (clean_data dfMissingCast)).map Prod.fst = ["Unknown"] := by
  refine ⟨?_, rfl⟩
  intro df h
  rw [directorsOf] at h
  have h2 := (List.mem_filter.1 h).2
  simp at h2

/-- Claim C8: the yearly series is keyed by year in ascending order, each of
its entries is a present year_added value paired with its frequency, each
present year appears; the summary's earliest and latest year_added are
the minimum and maximum of the present values; and on the two-row frame
with date_added 2020-01-15 and 2021-03-02 the series is exactly
[(2020, 1), (2021, 1)] with earliest 2020 and latest 2021. -/
theorem c8_yearly_trend_rules :
    (∀ df : CFrame, (yearlySeries df).Pairwise (fun a b => a.1 ≤ b.1))
  ∧ (∀ (df : CFrame) (p : Int × Nat), p ∈ yearlySeries df →
       p.1 ∈ yearsOf df ∧ p.2 = (yearsOf df).count p.1)
  ∧ (∀ (df : CFrame) (y : Int), y ∈ yearsOf df →
       (y, (yearsOf df).count y) ∈ yearlySeries df)
  ∧ (∀ (df : CFrame) (e : Int), earliest_year_added df = some e →
       e ∈ yearsOf df ∧ ∀ y ∈ yearsOf df, e ≤ y)
  ∧ (∀ (df : CFrame) (m : Int), latest_year_added df = some m →
       m ∈ yearsOf df ∧ ∀ y ∈ yearsOf df, y ≤ m)
  ∧ yearlySeries (clean_data twoRowDf) = [(2020, 1), (2021, 1)]
  ∧ earliest_year_added (clean_data twoRowDf) = some 2020
  ∧ latest_year_added (clean_data twoRowDf) = some 2021 := by
  refine ⟨?_, ?_, ?_, ?_, ?_, by decide, by decide, by decide⟩
  · intro df
    rw [yearlySeries, sort_index]
    have h := pairwise_stableSort (fun a b : Int × Nat => decide (a.1 ≤ b.1))
      (by intro a b c hab hbc; simp at hab hbc ⊢; omega)
      (by intro a b; rcases le_total a.1 b.1 with h | h <;> simp [h])
      (value_counts (yearsOf df))
    exact h.imp (by intro a b hab; simpa using hab)
  · intro df p hp
    rw [yearlySeries, sort_index, mem_stableSort, value_counts,
        mem_stableSort] at hp
    obtain ⟨v, hv, rfl⟩ := List.mem_map.1 hp
    exact ⟨(mem_dedupF _ _).1 hv, rfl⟩
  · intro df y hy
    rw [yearlySeries, sort_index, mem_stableSort, value_counts, mem_stableSort]
    exact List.mem_map.2 ⟨y, (mem_dedupF _ _).2 hy, rfl⟩
  · intro df e h
    rw [earliest_year_added,
        List.min?_eq_some_iff (fun a => le_refl a) (fun a b => min_choice a b)
          (fun a b c => le_min_iff)] at h
    exact h
  · intro df m h
    rw [latest_year_added,
        List.max?_eq_some_iff (fun a => le_refl a) (fun a b => max_choice a b)
          (fun a b c => max_le_iff)] at h
    exact h

/-- Claim C9: clean_data is a pure frame transformation: the schema is kept,
the rows are mapped one to one in order (none removed, added or
reordered), and on every row the original columns change only by the
named normalizations (type stripped; director, cast, country, rating and
listed_in sentinel-filled; date_added parsed) while every untouched
column's values are carried through unchanged. -/
theorem c9_clean_data_pure :
    ∀ df : DataFrame,
      (clean_data df).schema = df.schema
    ∧ (clean_data df).rows.length = df.rows.length
    ∧ List.Forall₂ (fun (c : CRow) (r : Row) =>
          c.type? = (if df.schema.hasType then r.type?.map pyStrip else none)
        ∧ c.director? = (if df.schema.hasDirector then some (r.director?.getD "Unknown") else none)
        ∧ c.cast? = (if df.schema.hasCast then some (r.cast?.getD "Unknown") else none)
        ∧ c.country? = (if df.schema.hasCountry then some (r.country?.getD "Unknown") else none)
        ∧ c.rating? = (if df.schema.hasRating then some (r.rating?.getD "Unknown") else none)
        ∧ c.listed_in? = (if df.schema.hasListedIn then some (r.listed_in?.getD "Unknown") else none)
        ∧ c.date_added = (if df.schema.hasDateAdded then r.date_added?.bind parseDate else none)
        ∧ c.other = r.other.map (fun p => (pyStrip p.1, p.2)))
        (clean_data df).rows df.rows := by
  intro df
  refine ⟨rfl, by simp [clean_data], ?_⟩
  show List.Forall₂ _ (df.rows.map (cleanRow df.schema)) df.rows
  rw [List.forall₂_map_left_iff, List.forall₂_same]
  intro r hr
  exact ⟨rfl, rfl, rfl, rfl, rfl, rfl, rfl, rfl⟩
